import Mathlib

/-!
Verification of the intent-routing and execution orchestrator of the
llm-agent-orchestrator repository (src/main.py and src/tools.py), as a shallow
embedding in Lean 4.

Modelling conventions:
* Python values decoded from JSON are modelled by `JValue`; Python dicts with
  string keys are association lists with first-match lookup and
  replace-or-append update (Python insertion-order semantics).
* Python binary floats are modelled as exact rationals (`Rat`).  The only
  place this could differ from CPython is a wait-time hint with more than
  sixteen fractional digits, which no claim exercises.
* The external model provider (HTTP POST, `raise_for_status`, the JSON body)
  is an oracle `List Msg → Bool → ProviderResponse`: the Bool is `true` for
  the structured tool-selection call (temperature 0, JSON response format)
  and `false` for the plain conversational fallback call.
* Network effects are recorded in an explicit event log (`Event`): one event
  per outbound model call and per invocation of a registered capability.
* Python control flow that returns `None` or lets an exception escape the
  endpoint is kept observable through `PyOutcome`.
-/

/-- JSON values as produced by Python `json.loads` / `response.json()`:
`null`, booleans, numbers (ints kept exact, floats as exact rationals),
strings, arrays and objects (insertion-ordered association lists). -/
inductive JValue where
  | null
  | bool (b : Bool)
  | int (i : Int)
  | float (q : Rat)
  | str (s : String)
  | arr (elems : List JValue)
  | obj (entries : List (String × JValue))
deriving Repr

mutual

/-- Decidable equality on JSON values (the nested lists keep the automatic
derivation from applying, so it is spelled out). -/
def decEqJ : (a b : JValue) → Decidable (a = b)
  | .null, .null => isTrue rfl
  | .bool x, .bool y =>
    match decEq x y with
    | isTrue h => isTrue (by rw [h])
    | isFalse h => isFalse (by intro he; cases he; exact h rfl)
  | .int x, .int y =>
    match decEq x y with
    | isTrue h => isTrue (by rw [h])
    | isFalse h => isFalse (by intro he; cases he; exact h rfl)
  | .float x, .float y =>
    match decEq x y with
    | isTrue h => isTrue (by rw [h])
    | isFalse h => isFalse (by intro he; cases he; exact h rfl)
  | .str x, .str y =>
    match decEq x y with
    | isTrue h => isTrue (by rw [h])
    | isFalse h => isFalse (by intro he; cases he; exact h rfl)
  | .arr xs, .arr ys =>
    match decEqJL xs ys with
    | isTrue h => isTrue (by rw [h])
    | isFalse h => isFalse (by intro he; cases he; exact h rfl)
  | .obj xs, .obj ys =>
    match decEqJO xs ys with
    | isTrue h => isTrue (by rw [h])
    | isFalse h => isFalse (by intro he; cases he; exact h rfl)
  | .null, .bool _ => isFalse (by intro h; cases h)
  | .null, .int _ => isFalse (by intro h; cases h)
  | .null, .float _ => isFalse (by intro h; cases h)
  | .null, .str _ => isFalse (by intro h; cases h)
  | .null, .arr _ => isFalse (by intro h; cases h)
  | .null, .obj _ => isFalse (by intro h; cases h)
  | .bool _, .null => isFalse (by intro h; cases h)
  | .bool _, .int _ => isFalse (by intro h; cases h)
  | .bool _, .float _ => isFalse (by intro h; cases h)
  | .bool _, .str _ => isFalse (by intro h; cases h)
  | .bool _, .arr _ => isFalse (by intro h; cases h)
  | .bool _, .obj _ => isFalse (by intro h; cases h)
  | .int _, .null => isFalse (by intro h; cases h)
  | .int _, .bool _ => isFalse (by intro h; cases h)
  | .int _, .float _ => isFalse (by intro h; cases h)
  | .int _, .str _ => isFalse (by intro h; cases h)
  | .int _, .arr _ => isFalse (by intro h; cases h)
  | .int _, .obj _ => isFalse (by intro h; cases h)
  | .float _, .null => isFalse (by intro h; cases h)
  | .float _, .bool _ => isFalse (by intro h; cases h)
  | .float _, .int _ => isFalse (by intro h; cases h)
  | .float _, .str _ => isFalse (by intro h; cases h)
  | .float _, .arr _ => isFalse (by intro h; cases h)
  | .float _, .obj _ => isFalse (by intro h; cases h)
  | .str _, .null => isFalse (by intro h; cases h)
  | .str _, .bool _ => isFalse (by intro h; cases h)
  | .str _, .int _ => isFalse (by intro h; cases h)
  | .str _, .float _ => isFalse (by intro h; cases h)
  | .str _, .arr _ => isFalse (by intro h; cases h)
  | .str _, .obj _ => isFalse (by intro h; cases h)
  | .arr _, .null => isFalse (by intro h; cases h)
  | .arr _, .bool _ => isFalse (by intro h; cases h)
  | .arr _, .int _ => isFalse (by intro h; cases h)
  | .arr _, .float _ => isFalse (by intro h; cases h)
  | .arr _, .str _ => isFalse (by intro h; cases h)
  | .arr _, .obj _ => isFalse (by intro h; cases h)
  | .obj _, .null => isFalse (by intro h; cases h)
  | .obj _, .bool _ => isFalse (by intro h; cases h)
  | .obj _, .int _ => isFalse (by intro h; cases h)
  | .obj _, .float _ => isFalse (by intro h; cases h)
  | .obj _, .str _ => isFalse (by intro h; cases h)
  | .obj _, .arr _ => isFalse (by intro h; cases h)

def decEqJL : (a b : List JValue) → Decidable (a = b)
  | [], [] => isTrue rfl
  | [], _ :: _ => isFalse (by intro h; cases h)
  | _ :: _, [] => isFalse (by intro h; cases h)
  | x :: xs, y :: ys =>
    match decEqJ x y, decEqJL xs ys with
    | isTrue h1, isTrue h2 => isTrue (by rw [h1, h2])
    | isFalse h1, _ => isFalse (by intro he; cases he; exact h1 rfl)
    | _, isFalse h2 => isFalse (by intro he; cases he; exact h2 rfl)

def decEqJO : (a b : List (String × JValue)) → Decidable (a = b)
  | [], [] => isTrue rfl
  | [], _ :: _ => isFalse (by intro h; cases h)
  | _ :: _, [] => isFalse (by intro h; cases h)
  | (k1, v1) :: xs, (k2, v2) :: ys =>
    match decEq k1 k2, decEqJ v1 v2, decEqJO xs ys with
    | isTrue h0, isTrue h1, isTrue h2 => isTrue (by rw [h0, h1, h2])
    | isFalse h0, _, _ => isFalse (by intro he; cases he; exact h0 rfl)
    | _, isFalse h1, _ => isFalse (by intro he; cases he; exact h1 rfl)
    | _, _, isFalse h2 => isFalse (by intro he; cases he; exact h2 rfl)

end

instance : DecidableEq JValue := decEqJ

/-- First-match lookup in a Python dict (association list). -/
def lookupJ : List (String × JValue) → String → Option JValue
  | [], _ => none
  | (k0, v0) :: rest, k => if k0 = k then some v0 else lookupJ rest k

/-- Python `d.get(k, default)`: the stored value when the key is present
(even when that value is `None`), otherwise the default. -/
def getDefault (kvs : List (String × JValue)) (k : String) (d : JValue) : JValue :=
  match lookupJ kvs k with
  | some v => v
  | none => d

/-- Python `d.get(k)` as the orchestrator uses it for `tool_name`: a stored
JSON `null` decodes to Python `None`, which is indistinguishable from an
absent key, so both map to `none`. -/
def pyGetOpt (kvs : List (String × JValue)) (k : String) : Option JValue :=
  match lookupJ kvs k with
  | some JValue.null => none
  | r => r

/-- Python dict update `d[k] = v`: replace in place when the key exists
(keeping its position), append otherwise. -/
def setKey : List (String × JValue) → String → JValue → List (String × JValue)
  | [], k, v => [(k, v)]
  | (k0, v0) :: rest, k, v =>
    if k0 = k then (k0, v) :: rest else (k0, v0) :: setKey rest k v

/-- The character class of the arithmetic fast path and of the calculator
guard, `[\d\s\+\-\*/\(\)\.]` (src/main.py line 77, src/tools.py line 20).
Python's Unicode `\d`/`\s` classes are modelled as ASCII digits and Lean
whitespace; every character any claim exercises falls in the common part. -/
def isMathChar (c : Char) : Bool :=
  c.isDigit || c.isWhitespace ||
    c = '+' || c = '-' || c = '*' || c = '/' || c = '(' || c = ')' || c = '.'

/-- Leading and trailing whitespace removed, Python `str.strip()` (written
over the character list so that it reduces inside the kernel). -/
def trimChars (cs : List Char) : List Char :=
  ((cs.dropWhile Char.isWhitespace).reverse.dropWhile Char.isWhitespace).reverse

def pyStrip (s : String) : String :=
  String.mk (trimChars s.toList)

/-- The Fast-Path Classifier `is_purely_math_query` (src/main.py lines 76-78):
`re.fullmatch` of `^[\d\s\+\-\*/\(\)\.]+$` against the stripped query, so the
stripped query must be non-empty (the `+` quantifier) and consist solely of
class characters. -/
def is_purely_math_query (query : String) : Bool :=
  !(pyStrip query).toList.isEmpty && (pyStrip query).toList.all isMathChar

/-- Python numbers arising from evaluating a charset-restricted arithmetic
expression: `int` stays exact, a Python float is modelled as an exact
rational. -/
inductive PyNum where
  | int (i : Int)
  | float (q : Rat)
deriving DecidableEq, Repr

def PyNum.toRat : PyNum → Rat
  | .int i => (i : Rat)
  | .float q => q

def pyAdd : PyNum → PyNum → PyNum
  | .int a, .int b => .int (a + b)
  | a, b => .float (a.toRat + b.toRat)

def pySub : PyNum → PyNum → PyNum
  | .int a, .int b => .int (a - b)
  | a, b => .float (a.toRat - b.toRat)

def pyMul : PyNum → PyNum → PyNum
  | .int a, .int b => .int (a * b)
  | a, b => .float (a.toRat * b.toRat)

/-- Python true division `/`: always a float; division by zero raises. -/
def pyDiv (a b : PyNum) : Except String PyNum :=
  if b.toRat = 0 then .error "ZeroDivisionError: division by zero"
  else .ok (.float (a.toRat / b.toRat))

/-- Python floor division `//` (reachable because the charset admits two
slashes): int by int stays int, otherwise a float; zero divisor raises. -/
def pyFloorDiv (a b : PyNum) : Except String PyNum :=
  if b.toRat = 0 then .error "ZeroDivisionError: division by zero"
  else match a, b with
    | .int x, .int y => .ok (.int (Int.fdiv x y))
    | _, _ => .ok (.float ((Rat.floor (a.toRat / b.toRat) : Int) : Rat))

/-- Python `**` (reachable because the charset admits two stars) for integer
exponents; a float exponent would in general produce an irrational value and
is outside the modelled fragment (no claim exercises `**` at all). -/
def pyPow (a b : PyNum) : Except String PyNum :=
  match b with
  | .int e =>
    if 0 ≤ e then
      match a with
      | .int x => .ok (.int (x ^ e.toNat))
      | .float q => .ok (.float (q ^ e.toNat))
    else if a.toRat = 0 then .error "ZeroDivisionError: zero to a negative power"
    else .ok (.float ((a.toRat ^ (-e).toNat)⁻¹))
  | .float _ => .error "float exponent outside the modelled fragment"

def pyNeg : PyNum → PyNum
  | .int i => .int (-i)
  | .float q => .float (-q)

/-- The numeric value of a list of ASCII digits. -/
def natOfDigits (ds : List Char) : Nat :=
  ds.foldl (fun a c => a * 10 + (c.toNat - 48)) 0

/-- Tokens of the arithmetic fragment Python `eval` can see once the charset
guard has passed. -/
inductive Tok where
  | num (v : PyNum)
  | plus | minus | star | slash | dslash | pow | lp | rp
deriving DecidableEq, Repr

/-- Lex one Python numeric literal (digits, optional fraction, or a leading
dot with digits).  Python 3 rejects an integer literal with a leading zero
unless it is all zeros; float literals have no such restriction. -/
def lexNum (cs : List Char) : Except String (PyNum × List Char) :=
  match cs with
  | '.' :: rest =>
    let (fs, r2) := rest.span Char.isDigit
    if fs.isEmpty then .error "SyntaxError: lone dot"
    else .ok (.float ((natOfDigits fs : Rat) / ((10 : Rat) ^ fs.length)), r2)
  | _ =>
    let (ds, r1) := cs.span Char.isDigit
    if ds.isEmpty then .error "SyntaxError: expected a number"
    else match r1 with
      | '.' :: r2 =>
        let (fs, r3) := r2.span Char.isDigit
        .ok (.float ((natOfDigits ds : Rat) +
              (natOfDigits fs : Rat) / ((10 : Rat) ^ fs.length)), r3)
      | _ =>
        if ds.head? = some '0' ∧ ds.any (fun c => c ≠ '0') then
          .error "SyntaxError: leading zeros in decimal integer literal"
        else .ok (.int (natOfDigits ds : Int), r1)

/-- Tokenizer for the arithmetic fragment (fuelled; the fuel is the input
length plus one, and every step consumes at least one character). -/
def lexAux : Nat → List Char → Except String (List Tok)
  | 0, _ => .error "internal: lexer fuel exhausted"
  | _ + 1, [] => .ok []
  | fuel + 1, c :: rest =>
    if c.isWhitespace then lexAux fuel rest
    else if c = '+' then (lexAux fuel rest).map (Tok.plus :: ·)
    else if c = '-' then (lexAux fuel rest).map (Tok.minus :: ·)
    else if c = '(' then (lexAux fuel rest).map (Tok.lp :: ·)
    else if c = ')' then (lexAux fuel rest).map (Tok.rp :: ·)
    else if c = '*' then
      match rest with
      | '*' :: r2 => (lexAux fuel r2).map (Tok.pow :: ·)
      | _ => (lexAux fuel rest).map (Tok.star :: ·)
    else if c = '/' then
      match rest with
      | '/' :: r2 => (lexAux fuel r2).map (Tok.dslash :: ·)
      | _ => (lexAux fuel rest).map (Tok.slash :: ·)
    else if c.isDigit || c = '.' then
      match lexNum (c :: rest) with
      | .ok (v, r2) => (lexAux fuel r2).map (Tok.num v :: ·)
      | .error e => .error e
    else .error "SyntaxError: unexpected character"

mutual

/-- Additive level: `term (('+'|'-') term)*`. -/
def parseExpr : Nat → List Tok → Except String (PyNum × List Tok)
  | 0, _ => .error "internal: parser fuel exhausted"
  | fuel + 1, ts =>
    match parseTerm fuel ts with
    | .ok (v, ts1) => parseExprLoop fuel v ts1
    | .error e => .error e

def parseExprLoop : Nat → PyNum → List Tok → Except String (PyNum × List Tok)
  | 0, _, _ => .error "internal: parser fuel exhausted"
  | fuel + 1, v, Tok.plus :: ts =>
    (match parseTerm fuel ts with
     | .ok (w, ts1) => parseExprLoop fuel (pyAdd v w) ts1
     | .error e => .error e)
  | fuel + 1, v, Tok.minus :: ts =>
    (match parseTerm fuel ts with
     | .ok (w, ts1) => parseExprLoop fuel (pySub v w) ts1
     | .error e => .error e)
  | _ + 1, v, ts => .ok (v, ts)

/-- Multiplicative level: `factor (('*'|'/'|'//') factor)*`. -/
def parseTerm : Nat → List Tok → Except String (PyNum × List Tok)
  | 0, _ => .error "internal: parser fuel exhausted"
  | fuel + 1, ts =>
    match parseFactor fuel ts with
    | .ok (v, ts1) => parseTermLoop fuel v ts1
    | .error e => .error e

def parseTermLoop : Nat → PyNum → List Tok → Except String (PyNum × List Tok)
  | 0, _, _ => .error "internal: parser fuel exhausted"
  | fuel + 1, v, Tok.star :: ts =>
    (match parseFactor fuel ts with
     | .ok (w, ts1) => parseTermLoop fuel (pyMul v w) ts1
     | .error e => .error e)
  | fuel + 1, v, Tok.slash :: ts =>
    (match parseFactor fuel ts with
     | .ok (w, ts1) =>
       (match pyDiv v w with
        | .ok u => parseTermLoop fuel u ts1
        | .error e => .error e)
     | .error e => .error e)
  | fuel + 1, v, Tok.dslash :: ts =>
    (match parseFactor fuel ts with
     | .ok (w, ts1) =>
       (match pyFloorDiv v w with
        | .ok u => parseTermLoop fuel u ts1
        | .error e => .error e)
     | .error e => .error e)
  | _ + 1, v, ts => .ok (v, ts)

/-- Unary level: Python `u_expr := ('+'|'-') u_expr | power`. -/
def parseFactor : Nat → List Tok → Except String (PyNum × List Tok)
  | 0, _ => .error "internal: parser fuel exhausted"
  | fuel + 1, Tok.plus :: ts => parseFactor fuel ts
  | fuel + 1, Tok.minus :: ts =>
    (match parseFactor fuel ts with
     | .ok (v, ts1) => .ok (pyNeg v, ts1)
     | .error e => .error e)
  | fuel + 1, ts => parsePower fuel ts

/-- Power level: Python `power := primary ['**' u_expr]` (right associative,
the exponent may carry a unary sign). -/
def parsePower : Nat → List Tok → Except String (PyNum × List Tok)
  | 0, _ => .error "internal: parser fuel exhausted"
  | fuel + 1, ts =>
    match parseAtom fuel ts with
    | .ok (v, Tok.pow :: ts1) =>
      (match parseFactor fuel ts1 with
       | .ok (w, ts2) =>
         (match pyPow v w with
          | .ok u => .ok (u, ts2)
          | .error e => .error e)
       | .error e => .error e)
    | .ok (v, ts1) => .ok (v, ts1)
    | .error e => .error e

def parseAtom : Nat → List Tok → Except String (PyNum × List Tok)
  | 0, _ => .error "internal: parser fuel exhausted"
  | _ + 1, Tok.num v :: ts => .ok (v, ts)
  | fuel + 1, Tok.lp :: ts =>
    (match parseExpr fuel ts with
     | .ok (v, Tok.rp :: ts1) => .ok (v, ts1)
     | .ok (_, _) => .error "SyntaxError: expected closing bracket"
     | .error e => .error e)
  | _ + 1, _ => .error "SyntaxError: expected an atom"

end

/-- Python `eval` restricted to the expressions the calculator's charset guard
can let through: numbers, `+ - * / // **`, unary signs and parentheses.
Binary-float rounding is modelled as exact rational arithmetic and a float
exponent under `**` is rejected rather than approximated; no claim exercises
either corner. -/
def pyEval (s : String) : Except String PyNum :=
  let cs := s.toList
  match lexAux (cs.length + 1) cs with
  | .error e => .error e
  | .ok ts =>
    match parseExpr (10 * ts.length + 10) ts with
    | .ok (v, []) => .ok v
    | .ok (_, _ :: _) => .error "SyntaxError: trailing tokens"
    | .error e => .error e

/-- The smallest number of decimal places (up to 17) that writes the rational
exactly, when one exists. -/
def ratDecExp (q : Rat) : Option Nat :=
  (List.range 18).find? (fun k => (q * ((10 : Rat) ^ k)).den == 1)

/-- Python `str()` of a float, for values with a terminating decimal
expansion (every value the evaluator's claims can reach); a non-terminating
value is rendered as an exact fraction, which CPython's shortest-roundtrip
repr would approximate instead. -/
def floatStr (q : Rat) : String :=
  let sgn := if q < 0 then "-" else ""
  let a := if q < 0 then -q else q
  match ratDecExp a with
  | some 0 => sgn ++ toString a.num ++ ".0"
  | some k =>
    let n := (a * ((10 : Rat) ^ k)).num.toNat
    let ds0 := (toString n).toList
    let ds := if ds0.length ≤ k then List.replicate (k + 1 - ds0.length) '0' ++ ds0 else ds0
    sgn ++ String.mk (ds.take (ds.length - k)) ++ "." ++ String.mk (ds.drop (ds.length - k))
  | none => sgn ++ toString a.num ++ " / " ++ toString a.den

/-- Python `str()` of an evaluator result. -/
def pyNumStr : PyNum → String
  | .int i => toString i
  | .float q => floatStr q

/-- `tools.calculator` (src/tools.py lines 17-26): the charset guard
`re.match` of `^[\d\s\+\-\*/\(\)\.]+$`, then `str(eval(expression))`; a guard
failure returns the invalid-expression string, an evaluation exception is
caught and returns the calculation-failed string.  `eval` is only applied
under the guard. -/
def calculator (expression : String) : String :=
  if !expression.toList.isEmpty && expression.toList.all isMathChar then
    match pyEval expression with
    | .ok v => pyNumStr v
    | .error _ => "Calculation failed. Check the math expression."
  else
    "Invalid math expression. Only numbers and basic operators are allowed."

/-- A chat message, Python-side a dict of strings: the orchestrator builds
entries of the shape `[("role", r), ("content", c)]` and passes the
caller-supplied history entries through untouched. -/
abbrev Msg := List (String × String)

def mkMsg (role content : String) : Msg :=
  [("role", role), ("content", content)]

/-- An entry of `AVAILABLE_TOOLS` (src/main.py lines 25-51): the description
shown to the model and the single keyword parameter of the capability's
Python function. -/
structure ToolSpec where
  description : String
  argName : String
deriving DecidableEq, Repr

/-- The Capability Registry `AVAILABLE_TOOLS` (src/main.py lines 25-51).  The
four data-fetching capabilities are opaque collaborators (each catches every
exception and returns a string); the calculator is embedded concretely. -/
def AVAILABLE_TOOLS : List (String × ToolSpec) :=
  [("get_news",
    ⟨"Fetches recent news articles about a specific topic, person, or company.",
     "topic"⟩),
   ("get_weather",
    ⟨"Provides the current weather, climate, or forecast for a given city.",
     "city"⟩),
   ("get_stock_price",
    ⟨"Gets the latest stock price for a company using its stock ticker symbol (e.g., AAPL for Apple).",
     "ticker_symbol"⟩),
   ("get_wikipedia_summary",
    ⟨"Retrieves a concise summary of a topic from Wikipedia.",
     "search_term"⟩),
   ("calculator",
    ⟨"Use ONLY for evaluating simple, direct arithmetic expressions like '4 * (3 + 2)'. This tool cannot handle abstract math concepts, variables, or word problems like 'what is calculus?'.",
     "expression"⟩)]

/-- Registry lookup, Python `tool_name in AVAILABLE_TOOLS` plus the
`AVAILABLE_TOOLS[tool_name]` access. -/
def lookupTool (name : String) : Option ToolSpec :=
  (AVAILABLE_TOOLS.find? (fun p => p.1 == name)).map Prod.snd

def lbrace : String := "\x7b"

def rbrace : String := "\x7d"

def jquote (s : String) : String := "\"" ++ s ++ "\""

/-- One element of the serialized capability catalog,
`{name: description, 'args': {param: {'type': 'string'}}}`. -/
def toolEntryJson (name : String) (t : ToolSpec) : String :=
  lbrace ++ jquote name ++ ": " ++ jquote t.description ++ ", " ++
    jquote "args" ++ ": " ++ lbrace ++ jquote t.argName ++ ": " ++
    lbrace ++ jquote "type" ++ ": " ++ jquote "string" ++ rbrace ++ rbrace ++ rbrace

/-- `tools_json_string` (src/main.py line 86): `json.dumps` of the catalog.
The `indent=2` pretty-printing whitespace is not reproduced; the string is
only ever embedded opaquely in the system prompt, and no claim inspects it. -/
def toolsJsonString : String :=
  "[" ++ String.intercalate ", "
    (AVAILABLE_TOOLS.map (fun p => toolEntryJson p.1 p.2)) ++ "]"

/-- `SYSTEM_PROMPT` (src/main.py lines 53-69) up to the catalog placeholder. -/
def systemPromptHeader : String :=
  "\nYou are a smart, tool-using assistant. Your goal is to accurately determine the user's intent and select the appropriate tool.\n\nHere is your thought process:\n1.  First, analyze the entire conversation history to understand the context.\n2.  Second, focus on the user's **latest query** to identify their primary, immediate intent.\n3.  Compare this intent against the descriptions of the available tools.\n\nYour Rules:\n- If the user's latest query CLEARLY and DIRECTLY matches the description of a tool, you MUST choose that tool. For example, queries about 'weather', 'climate', or 'forecast' should always use the 'get_weather' tool.\n- If the query is a conversational follow-up that does not explicitly ask for a tool (e.g., \"why is that?\", \"tell me more\", \"how?\"), or if no tool is a good fit, you MUST use the 'fallback' tool to continue the conversation.\n\nYou must respond ONLY with a valid JSON object with 'tool_name' and 'arguments' keys.\n\nHere are the available tools:\n"

/-- `SYSTEM_PROMPT.format(tools_json=tools_json_string)` (src/main.py
line 87): the template's one placeholder sits just before its final
newline. -/
def promptWithTools : String :=
  systemPromptHeader ++ toolsJsonString ++ "\n"

/-- The generic conversational instruction of the fallback call (src/main.py
line 111); it embeds no capability catalog. -/
def fallbackPrompt : String :=
  "You are a helpful and conversational assistant."

/-- The message sequence of the tool-selection call (src/main.py line 89):
a fresh list, system turn + history + current user turn. -/
def mainMessages (query : String) (history : List Msg) : List Msg :=
  mkMsg "system" promptWithTools :: (history ++ [mkMsg "user" query])

/-- The message sequence of the fallback call (src/main.py line 111). -/
def fallbackMessages (query : String) (history : List Msg) : List Msg :=
  mkMsg "system" fallbackPrompt :: (history ++ [mkMsg "user" query])

/-- The user-facing strings of the error paths (src/main.py lines 122,
139-145, 149). -/
def unknownToolMsg (toolName : String) : String :=
  "Error: The LLM chose a tool ('" ++ toolName ++ "') that does not exist."

def friendlyMsg (waitTime : Nat) : String :=
  "It looks like I'm a bit popular right now! Please wait about " ++
    toString waitTime ++ " seconds and try again."

def highTrafficMsg : String :=
  "I'm experiencing high traffic right now. Please try again in a moment."

def apiErrorMsg (status : Nat) : String :=
  "An API error occurred (Status Code: " ++ toString status ++ ")."

def unexpectedMsg (e : String) : String :=
  "An unexpected error occurred in the agent logic: " ++ e

/-- Consume an expected literal from the front of the input. -/
def stripLit : List Char → List Char → Option (List Char)
  | [], cs => some cs
  | _ :: _, [] => none
  | l :: ls, c :: cs => if l = c then stripLit ls cs else none

/-- The literal part of the wait-time pattern
`r"Please try again in (\d+\.?\d*)s"` (src/main.py line 136). -/
def pleaseLit : List Char := "Please try again in ".toList

/-- One anchored attempt of the wait-time regex: after the literal, the group
`\d+\.?\d*` must be followed by `s`.  Because the digit runs are maximal,
backtracking leaves exactly these shapes: digits then `s`; digits, dot,
digits then `s`; digits, dot then `s`.  Returns the integer digits and, when
a dot was consumed, the fractional digits. -/
def waitGroupAt (cs : List Char) : Option (List Char × Option (List Char)) :=
  match stripLit pleaseLit cs with
  | none => none
  | some cs1 =>
    let (d, r1) := cs1.span Char.isDigit
    if d.isEmpty then none
    else match r1 with
      | 's' :: _ => some (d, none)
      | '.' :: r2 =>
        let (e, r3) := r2.span Char.isDigit
        (match e, r3 with
         | [], 's' :: _ => some (d, some [])
         | _ :: _, 's' :: _ => some (d, some e)
         | _, _ => none)
      | _ => none

/-- `re.search`: try the pattern at every start position, leftmost match
first. -/
def searchWaitAux : List Char → Option (List Char × Option (List Char))
  | [] => none
  | c :: cs =>
    match waitGroupAt (c :: cs) with
    | some g => some g
    | none => searchWaitAux cs

/-- `math.ceil(float(match.group(1)))` (src/main.py line 138), computed on
the exact decimal value: the integer part, plus one when any fractional
digit is non-zero. -/
def ceilWait (d : List Char) (frac : Option (List Char)) : Nat :=
  natOfDigits d +
    (match frac with
     | some e => if e.any (fun c => c ≠ '0') then 1 else 0
     | none => 0)

/-- The Failure Classifier's wait-time extraction: the number of seconds the
friendly message will cite, when the message carries a recognized hint. -/
def searchWaitSeconds (s : String) : Option Nat :=
  (searchWaitAux s.toList).map (fun g => ceilWait g.1 g.2)

/-- The outcome of one outbound model-provider call, covering lines 91-97 and
113-118 of src/main.py together with the JSON library:
* `ok body`: HTTP success, `response.json()` gave `body`;
* `httpError status body`: `raise_for_status` raised, and at handler time
  `e.response.json()` gives `body` (`none` when the error body is not JSON,
  which raises `json.JSONDecodeError` there);
* `exn msg`: any other exception out of the call or out of reading a
  successful response (network failure, a 2xx body that is not JSON, a
  missing `choices` path), caught by the outer `except Exception`. -/
inductive ProviderResponse where
  | ok (body : JValue)
  | httpError (status : Nat) (body : Option JValue)
  | exn (msg : String)

/-- The observable network effects of one orchestration. -/
inductive Event where
  | modelCall (messages : List Msg) (structured : Bool)
  | toolInvoke (toolName : String) (args : List (String × JValue))
deriving DecidableEq, Repr

/-- The endpoint's reply: `{"query": ..., "result": ...}` (the result slot
holds whatever Python value was placed there; every embedded path that the
spec covers places a string). -/
structure OrchestrationResult where
  query : String
  result : JValue
deriving DecidableEq, Repr

/-- What the Python function call does, observably: return a value (possibly
`None`, modelled `ret none`) or let an exception escape. -/
inductive PyOutcome where
  | ret (r : Option OrchestrationResult)
  | raise (msg : String)
deriving DecidableEq, Repr

/-- `response.json()['choices'][0]['message']['content']` (src/main.py
lines 97 and 119): each failing subscript raises (KeyError, IndexError or
TypeError), which the outer handler turns into the unexpected-error result.
Python's stray ability to subscript a *string* with `[0]` is modelled as a
failure: the following `['message']` subscript would raise on the resulting
one-character string anyway, so the observable outcome is the same. -/
def getContent (body : JValue) : Except String JValue :=
  match body with
  | .obj kvs =>
    (match lookupJ kvs "choices" with
     | some (.arr (c0 :: _)) =>
       (match c0 with
        | .obj mkvs =>
          (match lookupJ mkvs "message" with
           | some (.obj ckvs) =>
             (match lookupJ ckvs "content" with
              | some v => .ok v
              | none => .error "KeyError: content")
           | some _ => .error "TypeError: message is not subscriptable by a string"
           | none => .error "KeyError: message")
        | _ => .error "TypeError: choices entry is not subscriptable by a string")
     | some (.arr []) => .error "IndexError: list index out of range"
     | some _ => .error "TypeError: choices is not subscriptable by an integer"
     | none => .error "KeyError: choices")
  | _ => .error "TypeError: response body is not subscriptable by a string"

/-- The HTTPError handler (src/main.py lines 126-145).  Mirrors Python
exactly, including its two quirks: a parsed error payload whose code is not
the rate-limit code falls off the end of the handler (the function returns
`None`), and a non-string `message` under the rate-limit code makes
`re.search` raise a TypeError that no enclosing handler catches. -/
def handleHTTPError (query : String) (status : Nat) (body : Option JValue) :
    PyOutcome :=
  match body with
  | none => .ret (some ⟨query, .str (apiErrorMsg status)⟩)
  | some j =>
    match j with
    | .obj kvs =>
      (match getDefault kvs "error" (.obj []) with
       | .obj ekvs =>
         if lookupJ ekvs "code" = some (.str "rate_limit_exceeded") then
           match getDefault ekvs "message" (.str "") with
           | .str m =>
             (match searchWaitSeconds m with
              | some w => .ret (some ⟨query, .str (friendlyMsg w)⟩)
              | none => .ret (some ⟨query, .str highTrafficMsg⟩))
           | _ => .raise "TypeError: expected string or bytes-like object"
         else .ret none
       | _ => .ret (some ⟨query, .str (apiErrorMsg status)⟩))
    | _ => .ret (some ⟨query, .str (apiErrorMsg status)⟩)

/-- Python `str()` of the scalar values that can reach the unknown-tool
message's f-string; `None` prints as `"None"`. -/
def pyStr : Option JValue → String
  | none => "None"
  | some .null => "None"
  | some (.bool true) => "True"
  | some (.bool false) => "False"
  | some (.int i) => toString i
  | some (.float q) => floatStr q
  | some (.str s) => s
  | some (.arr _) => "[...]"
  | some (.obj _) => "..."

/-- `tools.calculator` as invoked through the registry: its own handler turns
the TypeError that `re.match` raises on a non-string argument into the
calculation-failed string. -/
def pyCalculator : JValue → String
  | .str s => calculator s
  | _ => "Calculation failed. Check the math expression."

/-- Invocation of a registered capability's function.  The calculator is
concrete; the four data-fetching capabilities are the environment's
`env name argumentValue` (each catches all its exceptions and returns a
string, per src/tools.py). -/
def runRegisteredTool (env : String → JValue → String) (name : String)
    (v : JValue) : String :=
  if name = "calculator" then pyCalculator v else env name v

/-- `function(**arguments)` keyword unpacking against the single required
parameter each capability declares: anything but a mapping with exactly that
one key raises a TypeError (caught by the outer `except Exception`). -/
def unpackSingleArg (expected : String) (args : JValue) :
    Except String JValue :=
  match args with
  | .obj [(k, v)] =>
    if k = expected then .ok v
    else .error "TypeError: got an unexpected keyword argument"
  | .obj _ => .error "TypeError: keyword arguments do not match the one required parameter"
  | _ => .error "TypeError: argument of type other than mapping after **"

/-- The fallback branch (src/main.py lines 109-119): a second model call with
the generic conversational instruction, no capability catalog and no
structured-response constraint, whose reply content is returned unchanged.
Its `raise_for_status` is covered by the same HTTPError handler. -/
def fallbackCall (oracle : List Msg → Bool → ProviderResponse)
    (query : String) (history : List Msg) : PyOutcome × List Event :=
  let msgs := fallbackMessages query history
  let ev : Event := .modelCall msgs false
  match oracle msgs false with
  | .ok body =>
    (match getContent body with
     | .ok c => (.ret (some ⟨query, c⟩), [ev])
     | .error m => (.ret (some ⟨query, .str (unexpectedMsg m)⟩), [ev]))
  | .httpError st b => (handleHTTPError query st b, [ev])
  | .exn m => (.ret (some ⟨query, .str (unexpectedMsg m)⟩), [ev])

/-- Dispatch on the parsed model choice (src/main.py lines 100-122):
`tool_name = llm_choice.get("tool_name")`,
`arguments = llm_choice.get("arguments", {})`, then the registered /
`fallback` / unknown three-way branch.  A non-string, unhashable `tool_name`
(a decoded list or dict) makes the `in AVAILABLE_TOOLS` membership test raise
a TypeError; a non-object `llm_choice` makes `.get` raise an AttributeError;
both are caught by the outer `except Exception`. -/
def dispatchChoice (oracle : List Msg → Bool → ProviderResponse)
    (env : String → JValue → String) (query : String) (history : List Msg)
    (choice : JValue) : PyOutcome × List Event :=
  match choice with
  | .obj kvs =>
    let args : JValue := getDefault kvs "arguments" (.obj [])
    (match pyGetOpt kvs "tool_name" with
     | some (.str s) =>
       (match lookupTool s with
        | some spec =>
          (match unpackSingleArg spec.argName args with
           | .ok v =>
             (.ret (some ⟨query, .str (runRegisteredTool env s v)⟩),
              [.toolInvoke s [(spec.argName, v)]])
           | .error m => (.ret (some ⟨query, .str (unexpectedMsg m)⟩), []))
        | none =>
          if s = "fallback" then fallbackCall oracle query history
          else (.ret (some ⟨query, .str (unknownToolMsg s)⟩), []))
     | some (.arr _) =>
       (.ret (some ⟨query, .str (unexpectedMsg "TypeError: unhashable type: 'list'")⟩), [])
     | some (.obj _) =>
       (.ret (some ⟨query, .str (unexpectedMsg "TypeError: unhashable type: 'dict'")⟩), [])
     | other =>
       (.ret (some ⟨query, .str (unknownToolMsg (pyStr other))⟩), []))
  | _ =>
    (.ret (some ⟨query, .str (unexpectedMsg "AttributeError: object has no attribute get")⟩), [])

def skipWs : List Char → List Char
  | c :: cs =>
    if c = ' ' ∨ c = '\t' ∨ c = '\n' ∨ c = '\r' then skipWs cs else c :: cs
  | [] => []

/-- Parse the body of a JSON string after its opening quote.  The common
escapes are handled; a `\uXXXX` escape is outside the modelled fragment (no
claim uses one). -/
def parseJStr : List Char → Except String (String × List Char)
  | [] => .error "json: unterminated string"
  | '"' :: cs => .ok ("", cs)
  | '\\' :: [] => .error "json: unterminated escape"
  | '\\' :: c :: cs =>
    (match
      (match c with
       | '"' => some '"'
       | '\\' => some '\\'
       | '/' => some '/'
       | 'n' => some '\n'
       | 't' => some '\t'
       | 'r' => some '\r'
       | 'b' => some (Char.ofNat 8)
       | 'f' => some (Char.ofNat 12)
       | _ => none) with
     | some d => (parseJStr cs).map (fun p => (String.mk (d :: p.1.toList), p.2))
     | none => .error "json: unsupported escape")
  | c :: cs => (parseJStr cs).map (fun p => (String.mk (c :: p.1.toList), p.2))

/-- Parse a JSON number: optional minus, digits, optional fraction, optional
exponent.  An integer literal decodes to a Python int, anything with a
fraction or exponent to a float. -/
def parseJNum (cs : List Char) : Except String (JValue × List Char) :=
  let (neg, cs1) :=
    match cs with
    | '-' :: r => (true, r)
    | _ => (false, cs)
  let (d, r1) := cs1.span Char.isDigit
  if d.isEmpty then .error "json: invalid number"
  else
    let intPart : Nat := natOfDigits d
    let (isFloat, q, r2) :=
      match r1 with
      | '.' :: rf =>
        let (f, r2) := rf.span Char.isDigit
        if f.isEmpty then (true, (0 : Rat), ([] : List Char))
        else (true, (intPart : Rat) + (natOfDigits f : Rat) / ((10 : Rat) ^ f.length), r2)
      | _ => (false, (intPart : Rat), r1)
    match r2, isFloat with
    | c :: r3, _ =>
      if c = 'e' ∨ c = 'E' then
        let (emin, r4) :=
          match r3 with
          | '+' :: t => (false, t)
          | '-' :: t => (true, t)
          | _ => (false, r3)
        let (ed, r5) := r4.span Char.isDigit
        if ed.isEmpty then .error "json: invalid exponent"
        else
          let k := natOfDigits ed
          let q2 := if emin then q / ((10 : Rat) ^ k) else q * ((10 : Rat) ^ k)
          .ok (.float (if neg then -q2 else q2), r5)
      else if isFloat then .ok (.float (if neg then -q else q), r2)
      else .ok (.int (if neg then -(intPart : Int) else (intPart : Int)), r2)
    | [], true => .ok (.float (if neg then -q else q), r2)
    | [], false => .ok (.int (if neg then -(intPart : Int) else (intPart : Int)), r2)

mutual

/-- A fuelled recursive-descent parser for the JSON fragment `json.loads`
sees here (objects, arrays, strings, numbers, the three literals).  Repeated
keys in an object overwrite, as in a Python dict. -/
def parseJV : Nat → List Char → Except String (JValue × List Char)
  | 0, _ => .error "json: fuel exhausted"
  | fuel + 1, cs =>
    match skipWs cs with
    | [] => .error "json: unexpected end of input"
    | c :: cs1 =>
      if c = 'n' then
        match stripLit ['u', 'l', 'l'] cs1 with
        | some r => .ok (.null, r)
        | none => .error "json: invalid literal"
      else if c = 't' then
        match stripLit ['r', 'u', 'e'] cs1 with
        | some r => .ok (.bool true, r)
        | none => .error "json: invalid literal"
      else if c = 'f' then
        match stripLit ['a', 'l', 's', 'e'] cs1 with
        | some r => .ok (.bool false, r)
        | none => .error "json: invalid literal"
      else if c = '"' then (parseJStr cs1).map (fun p => (.str p.1, p.2))
      else if c = '-' ∨ c.isDigit then parseJNum (c :: cs1)
      else if c = Char.ofNat 123 then parseJObj fuel (skipWs cs1) []
      else if c = '[' then parseJArr fuel (skipWs cs1) []
      else .error "json: unexpected character"

def parseJObj : Nat → List Char → List (String × JValue) →
    Except String (JValue × List Char)
  | 0, _, _ => .error "json: fuel exhausted"
  | fuel + 1, cs, acc =>
    match cs with
    | [] => .error "json: unterminated object"
    | c :: cs1 =>
      if c = Char.ofNat 125 ∧ acc.isEmpty then .ok (.obj [], cs1)
      else if c = '"' then
        match parseJStr cs1 with
        | .error e => .error e
        | .ok (k, r1) =>
          (match skipWs r1 with
           | ':' :: r2 =>
             (match parseJV fuel r2 with
              | .error e => .error e
              | .ok (v, r3) =>
                let acc2 := setKey acc k v
                (match skipWs r3 with
                 | ',' :: r4 => parseJObj fuel (skipWs r4) acc2
                 | c2 :: r4 =>
                   if c2 = Char.ofNat 125 then .ok (.obj acc2, r4)
                   else .error "json: expected a comma or the end of the object"
                 | [] => .error "json: unterminated object"))
           | _ => .error "json: expected a colon")
      else .error "json: expected a key"

def parseJArr : Nat → List Char → List JValue →
    Except String (JValue × List Char)
  | 0, _, _ => .error "json: fuel exhausted"
  | fuel + 1, cs, acc =>
    match cs with
    | [] => .error "json: unterminated array"
    | c :: cs1 =>
      if c = ']' ∧ acc.isEmpty then .ok (.arr [], cs1)
      else
        match parseJV fuel (c :: cs1) with
        | .error e => .error e
        | .ok (v, r1) =>
          (match skipWs r1 with
           | ',' :: r2 => parseJArr fuel (skipWs r2) (acc ++ [v])
           | ']' :: r2 => .ok (.arr (acc ++ [v]), r2)
           | _ => .error "json: expected a comma or the end of the array")

end

/-- `json.loads` over the modelled JSON fragment. -/
def jsonLoads (s : String) : Except String JValue :=
  match parseJV (2 * s.length + 8) s.toList with
  | .error e => .error e
  | .ok (v, rest) =>
    if (skipWs rest).isEmpty then .ok v else .error "json: extra data"

/-- `orchestrate_agent` (src/main.py lines 81-149): build the tool-selection
messages, call the provider, parse `choices[0].message.content` as JSON,
dispatch on the choice; HTTP errors go through `handleHTTPError`, every
other exception becomes the unexpected-error result. -/
def orchestrate_agent (oracle : List Msg → Bool → ProviderResponse)
    (env : String → JValue → String) (query : String) (history : List Msg) :
    PyOutcome × List Event :=
  let msgs := mainMessages query history
  let ev : Event := .modelCall msgs true
  match oracle msgs true with
  | .httpError st b => (handleHTTPError query st b, [ev])
  | .exn m => (.ret (some ⟨query, .str (unexpectedMsg m)⟩), [ev])
  | .ok body =>
    match getContent body with
    | .error m => (.ret (some ⟨query, .str (unexpectedMsg m)⟩), [ev])
    | .ok (.str s) =>
      (match jsonLoads s with
       | .error m => (.ret (some ⟨query, .str (unexpectedMsg m)⟩), [ev])
       | .ok choice =>
         let r := dispatchChoice oracle env query history choice
         (r.1, ev :: r.2))
    | .ok _ =>
      (.ret (some ⟨query, .str (unexpectedMsg "TypeError: the JSON object must be str")⟩), [ev])

/-- The `/orchestrate` endpoint (src/main.py lines 152-163): strip the query;
a fast-path hit calls `tools.calculator(expression=query)` directly with no
model call, otherwise hand over to `orchestrate_agent`. -/
def orchestrate (oracle : List Msg → Bool → ProviderResponse)
    (env : String → JValue → String) (rawQuery : String)
    (history : List Msg) : PyOutcome × List Event :=
  let query := pyStrip rawQuery
  if is_purely_math_query query then
    (.ret (some ⟨query, .str (calculator query)⟩),
     [.toolInvoke "calculator" [("expression", .str query)]])
  else
    orchestrate_agent oracle env query history

/-! Concrete oracles and payloads used by the witnesses below. -/

def envEmpty : String → JValue → String := fun _ _ => ""

def bodyWith (content : String) : JValue :=
  .obj [("choices", .arr [.obj [("message", .obj [("content", .str content)])]])]

def rateLimitBody (m : String) : JValue :=
  .obj [("error", .obj [("code", .str "rate_limit_exceeded"), ("message", .str m)])]

def invalidKeyBody : JValue :=
  .obj [("error", .obj [("code", .str "invalid_api_key"), ("message", .str "Invalid API Key")])]

def contentUnknown : String := lbrace ++ "\"tool_name\": \"magic8ball\"" ++ rbrace

def oracleUnknown : List Msg → Bool → ProviderResponse :=
  fun _ _ => .ok (bodyWith contentUnknown)

def contentFallback : String := lbrace ++ "\"tool_name\": \"fallback\"" ++ rbrace

def oracleFallback : List Msg → Bool → ProviderResponse := fun _ structured =>
  if structured then .ok (bodyWith contentFallback)
  else .ok (bodyWith "free text reply")

def contentNoTool : String := lbrace ++ "\"arguments\": " ++ lbrace ++ rbrace ++ rbrace

def oracleNoTool : List Msg → Bool → ProviderResponse :=
  fun _ _ => .ok (bodyWith contentNoTool)

/-- C1 (code bug): an HTTP client error whose JSON payload parses but carries
an error code other than the rate-limit code makes the orchestrator fall off
the end of its HTTPError handler, so the Python function returns `None`
instead of an OrchestrationResult pair — the spec's every-path contract is
violated on this input. -/
theorem non_rate_limit_parsed_error_returns_none :
    (orchestrate_agent (fun _ _ => .httpError 401 (some invalidKeyBody)) envEmpty
      "hello" []).1 = .ret none := by
  rfl

/-- C2 (counterexample): a rate-limit error message that contains a numeric
wait-time hint followed by a seconds unit ("Try again in 4.2s") but not the
exact phrase "Please try again in " produces the generic high-traffic
message, which does not cite the rounded 5-second wait. -/
theorem rate_limit_hint_needs_exact_phrase :
    (orchestrate_agent
      (fun _ _ => .httpError 429 (some (rateLimitBody "Rate limit reached. Try again in 4.2s.")))
      envEmpty "hi" []).1 = .ret (some ⟨"hi", .str highTrafficMsg⟩) ∧
    highTrafficMsg ≠ friendlyMsg 5 := by
  exact ⟨rfl, by decide⟩

/-- C2 (amended): when the provider call fails with an HTTP error whose
parsed payload carries the rate-limit code and a string message, the Failure
Classifier returns a successful OrchestrationResult: the friendly message
citing the hint rounded up to the next whole second when the message matches
"Please try again in (number)s", and the generic high-traffic message
otherwise; rate limiting is never surfaced as a hard error. -/
theorem rate_limit_is_classified
    (oracle : List Msg → Bool → ProviderResponse) (env : String → JValue → String)
    (query : String) (history : List Msg) (status : Nat)
    (bkvs ekvs : List (String × JValue)) (m : String)
    (h1 : oracle (mainMessages query history) true = .httpError status (some (.obj bkvs)))
    (h2 : getDefault bkvs "error" (.obj []) = .obj ekvs)
    (h3 : lookupJ ekvs "code" = some (.str "rate_limit_exceeded"))
    (h4 : getDefault ekvs "message" (.str "") = .str m) :
    (orchestrate_agent oracle env query history).1 =
      (match searchWaitSeconds m with
       | some w => .ret (some ⟨query, .str (friendlyMsg w)⟩)
       | none => .ret (some ⟨query, .str highTrafficMsg⟩)) ∧
    ∃ r, (orchestrate_agent oracle env query history).1 = PyOutcome.ret (some r) := by
  have key : (orchestrate_agent oracle env query history).1 =
      handleHTTPError query status (some (.obj bkvs)) := by
    simp only [orchestrate_agent, h1]
  have hh : handleHTTPError query status (some (.obj bkvs)) =
      (match searchWaitSeconds m with
       | some w => PyOutcome.ret (some ⟨query, .str (friendlyMsg w)⟩)
       | none => PyOutcome.ret (some ⟨query, .str highTrafficMsg⟩)) := by
    simp only [handleHTTPError, h2, h3, h4]
    simp
  refine ⟨key.trans hh, ?_⟩
  rcases hsw : searchWaitSeconds m with _ | w
  · exact ⟨⟨query, .str highTrafficMsg⟩, by rw [key, hh, hsw]⟩
  · exact ⟨⟨query, .str (friendlyMsg w)⟩, by rw [key, hh, hsw]⟩

/-- C2 witness: the spec's own example, a rate-limit message carrying
"Please try again in 4.2s", produces the friendly message citing a 5-second
wait. -/
theorem rate_limit_is_classified_witness :
    (orchestrate_agent
      (fun _ _ => .httpError 429 (some (rateLimitBody "Rate limit reached. Please try again in 4.2s.")))
      envEmpty "hi" []).1 = .ret (some ⟨"hi", .str (friendlyMsg 5)⟩) := by
  have h := (rate_limit_is_classified
    (fun _ _ => .httpError 429 (some (rateLimitBody "Rate limit reached. Please try again in 4.2s.")))
    envEmpty "hi" [] 429
    [("error", .obj [("code", .str "rate_limit_exceeded"),
       ("message", .str "Rate limit reached. Please try again in 4.2s.")])]
    [("code", .str "rate_limit_exceeded"),
     ("message", .str "Rate limit reached. Please try again in 4.2s.")]
    "Rate limit reached. Please try again in 4.2s." rfl rfl rfl rfl).1
  rw [h]
  rfl

/-- C3: the calculator returns "6" on "3*2", a descriptive failure string
(not a crash) on "3/0", and on every expression containing a character
outside the arithmetic class it returns the invalid-expression string — by
the shape of `calculator`, `pyEval` is only applied under the charset guard,
so evaluation is unreachable for such input. -/
theorem calculator_spec :
    calculator "3*2" = "6" ∧
    calculator "3/0" = "Calculation failed. Check the math expression." ∧
    ∀ e : String, (∃ c ∈ e.toList, isMathChar c = false) →
      calculator e = "Invalid math expression. Only numbers and basic operators are allowed." := by
  refine ⟨by decide, by decide, fun e he => ?_⟩
  obtain ⟨c, hc, hmc⟩ := he
  have hall : e.toList.all isMathChar = false := by
    rw [List.all_eq_false]
    exact ⟨c, hc, by simp [hmc]⟩
  unfold calculator
  rw [hall]
  simp

/-- C3 witness: "import os" contains characters outside the class and gets
the invalid-expression string. -/
theorem calculator_spec_witness :
    calculator "import os" =
      "Invalid math expression. Only numbers and basic operators are allowed." :=
  calculator_spec.2.2 "import os" ⟨'i', by decide, by decide⟩

/-- C4: when the stripped query passes the Fast-Path Classifier, the
orchestration entry point returns the calculator's result on that stripped
query, the only logged event is the calculator invocation, and no
model-provider call is issued. -/
theorem fastpath_uses_calculator_only
    (oracle : List Msg → Bool → ProviderResponse) (env : String → JValue → String)
    (rawQuery : String) (history : List Msg)
    (h : is_purely_math_query (pyStrip rawQuery) = true) :
    orchestrate oracle env rawQuery history =
      (.ret (some ⟨pyStrip rawQuery, .str (calculator (pyStrip rawQuery))⟩),
       [.toolInvoke "calculator" [("expression", .str (pyStrip rawQuery))]]) ∧
    ∀ ms b, Event.modelCall ms b ∉ (orchestrate oracle env rawQuery history).2 := by
  have heq : orchestrate oracle env rawQuery history =
      (.ret (some ⟨pyStrip rawQuery, .str (calculator (pyStrip rawQuery))⟩),
       [.toolInvoke "calculator" [("expression", .str (pyStrip rawQuery))]]) := by
    simp only [orchestrate, h, if_true]
  refine ⟨heq, fun ms b hmem => ?_⟩
  rw [heq] at hmem
  simp at hmem

/-- C4 witness: the query " 3*2 " takes the fast path and yields "6" with no
model call. -/
theorem fastpath_uses_calculator_only_witness :
    orchestrate (fun _ _ => .exn "boom") envEmpty " 3*2 " [] =
      (.ret (some ⟨"3*2", .str "6"⟩),
       [.toolInvoke "calculator" [("expression", .str "3*2")]]) := by
  have h := (fastpath_uses_calculator_only (fun _ _ => .exn "boom") envEmpty " 3*2 " []
    (by decide)).1
  rw [h]
  rfl

/-- C5 (counterexample): the empty string consists (vacuously) solely of
class characters, yet the classifier returns false — the claimed
if-and-only-if fails at the empty string. -/
theorem lexical_check_vacuous_on_empty :
    ("".toList.all isMathChar = true) ∧ is_purely_math_query "" = false := by
  decide

/-- C5 (amended): the Fast-Path Classifier returns true iff the stripped
query is non-empty and consists solely of characters from the class
(digits, whitespace, `+ - * / ( ) .`); in particular it returns false for
every query containing any other character. -/
theorem lexical_check_spec (query : String) :
    is_purely_math_query query = true ↔
      ((pyStrip query).toList ≠ [] ∧ ∀ c ∈ (pyStrip query).toList, isMathChar c = true) := by
  simp [is_purely_math_query, List.all_eq_true, List.isEmpty_iff]

/-- C5 witness: "3*2" satisfies the characterization. -/
theorem lexical_check_spec_witness : is_purely_math_query "3*2" = true :=
  (lexical_check_spec "3*2").mpr (by decide)

/-- C6 (counterexample): the empty string does not pass the lexical check —
the pattern's `+` quantifier needs at least one character — refuting the
claim that it does. -/
theorem empty_string_fails_lexical_check : is_purely_math_query "" = false := by
  decide

/-- C6 (amended): a non-empty (already stripped) string consisting only of
operator characters passes the lexical check, with failure deferred to
evaluation time; the empty string fails the check instead of passing it. -/
theorem operator_string_passes_lexical_check (s : String)
    (htrim : pyStrip s = s) (hne : s.toList ≠ [])
    (hop : ∀ c ∈ s.toList,
      c = '+' ∨ c = '-' ∨ c = '*' ∨ c = '/' ∨ c = '(' ∨ c = ')' ∨ c = '.') :
    is_purely_math_query s = true ∧ is_purely_math_query "" = false := by
  refine ⟨?_, by decide⟩
  have h2 : s.toList.all isMathChar = true :=
    List.all_eq_true.mpr fun c hc => by
      rcases hop c hc with h | h | h | h | h | h | h <;> simp [isMathChar, h]
  unfold is_purely_math_query
  rw [htrim, h2]
  simp [List.isEmpty_iff]
  exact hne

/-- C6 witness: the operator-only string "+*(" passes the check while the
empty string fails it. -/
theorem operator_string_passes_lexical_check_witness :
    is_purely_math_query "+*(" = true ∧ is_purely_math_query "" = false :=
  operator_string_passes_lexical_check "+*(" (by decide) (by decide) (by decide)

/-- C7: a model choice naming a tool that is neither registered nor the
reserved "fallback" yields the descriptive does-not-exist result (which
contains the tool name as a substring), with no capability invocation and no
second model call. -/
theorem unknown_tool_is_recovered
    (oracle : List Msg → Bool → ProviderResponse) (env : String → JValue → String)
    (query : String) (history : List Msg) (body : JValue) (s nm : String)
    (kvs : List (String × JValue))
    (h1 : oracle (mainMessages query history) true = .ok body)
    (h2 : getContent body = .ok (.str s))
    (h3 : jsonLoads s = .ok (.obj kvs))
    (h4 : pyGetOpt kvs "tool_name" = some (.str nm))
    (h5 : lookupTool nm = none)
    (h6 : nm ≠ "fallback") :
    orchestrate_agent oracle env query history =
      (.ret (some ⟨query, .str (unknownToolMsg nm)⟩),
       [.modelCall (mainMessages query history) true]) ∧
    unknownToolMsg nm =
      "Error: The LLM chose a tool ('" ++ (nm ++ "') that does not exist.") ∧
    ∀ n args, Event.toolInvoke n args ∉ (orchestrate_agent oracle env query history).2 := by
  have heq : orchestrate_agent oracle env query history =
      (.ret (some ⟨query, .str (unknownToolMsg nm)⟩),
       [.modelCall (mainMessages query history) true]) := by
    simp only [orchestrate_agent, h1, h2, h3, dispatchChoice, h4, h5, if_neg h6]
  refine ⟨heq, by simp [unknownToolMsg, String.append_assoc], fun n args hmem => ?_⟩
  rw [heq] at hmem
  simp at hmem

/-- C7 witness: the unregistered tool name "magic8ball" produces the
does-not-exist message. -/
theorem unknown_tool_is_recovered_witness :
    (orchestrate_agent oracleUnknown envEmpty "q" []).1 =
      .ret (some ⟨"q", .str (unknownToolMsg "magic8ball")⟩) := by
  have h := (unknown_tool_is_recovered oracleUnknown envEmpty "q" []
    (bodyWith contentUnknown) contentUnknown "magic8ball"
    [("tool_name", .str "magic8ball")] rfl rfl rfl rfl rfl (by decide)).1
  rw [h]

/-- C8: a model choice naming the reserved "fallback" triggers exactly one
further model call, whose messages are the generic conversational system
instruction (the constant short prompt, carrying no capability catalog)
followed by the history and the user query, sent without the
structured-response constraint, and whose reply content is returned
unchanged as the result. -/
theorem fallback_is_plain_conversational_call
    (oracle : List Msg → Bool → ProviderResponse) (env : String → JValue → String)
    (query : String) (history : List Msg) (body1 body2 : JValue) (s : String)
    (kvs : List (String × JValue)) (c : JValue)
    (h1 : oracle (mainMessages query history) true = .ok body1)
    (h2 : getContent body1 = .ok (.str s))
    (h3 : jsonLoads s = .ok (.obj kvs))
    (h4 : pyGetOpt kvs "tool_name" = some (.str "fallback"))
    (h5 : oracle (fallbackMessages query history) false = .ok body2)
    (h6 : getContent body2 = .ok c) :
    orchestrate_agent oracle env query history =
      (.ret (some ⟨query, c⟩),
       [.modelCall (mainMessages query history) true,
        .modelCall (fallbackMessages query history) false]) ∧
    fallbackMessages query history =
      mkMsg "system" fallbackPrompt :: (history ++ [mkMsg "user" query]) ∧
    fallbackPrompt = "You are a helpful and conversational assistant." := by
  have hl : lookupTool "fallback" = none := by rfl
  refine ⟨?_, rfl, rfl⟩
  simp only [orchestrate_agent, h1, h2, h3, dispatchChoice, h4, hl, if_pos rfl,
    fallbackCall, h5, h6]
  simp

/-- C8 witness: a fallback choice followed by the reply "free text reply"
returns that text verbatim. -/
theorem fallback_is_plain_conversational_call_witness :
    (orchestrate_agent oracleFallback envEmpty "q" []).1 =
      .ret (some ⟨"q", .str "free text reply"⟩) := by
  have h := (fallback_is_plain_conversational_call oracleFallback envEmpty "q" []
    (bodyWith contentFallback) (bodyWith "free text reply") contentFallback
    [("tool_name", .str "fallback")] (.str "free text reply")
    rfl rfl rfl rfl rfl rfl).1
  rw [h]

theorem fallbackCall_events (oracle : List Msg → Bool → ProviderResponse)
    (query : String) (history : List Msg) :
    (fallbackCall oracle query history).2 =
      [Event.modelCall (fallbackMessages query history) false] := by
  rcases h : oracle (fallbackMessages query history) false with body | ⟨st, b⟩ | m
  · rcases hc : getContent body with e | c <;> simp only [fallbackCall, h, hc]
  · simp only [fallbackCall, h]
  · simp only [fallbackCall, h]

theorem dispatchChoice_modelCalls (oracle : List Msg → Bool → ProviderResponse)
    (env : String → JValue → String) (query : String) (history : List Msg)
    (choice : JValue) :
    ∀ ms b, Event.modelCall ms b ∈ (dispatchChoice oracle env query history choice).2 →
      ms = fallbackMessages query history := by
  intro ms b
  rcases choice with _ | bv | iv | qv | sv | elems | kvs
  · simp [dispatchChoice]
  · simp [dispatchChoice]
  · simp [dispatchChoice]
  · simp [dispatchChoice]
  · simp [dispatchChoice]
  · simp [dispatchChoice]
  · simp only [dispatchChoice]
    rcases hpg : pyGetOpt kvs "tool_name" with _ | v
    · simp [hpg]
    · rcases v with _ | bv | iv | qv | sv | elems2 | kvs2
      · simp [hpg]
      · simp [hpg]
      · simp [hpg]
      · simp [hpg]
      · simp only [hpg]
        rcases hlt : lookupTool sv with _ | spec
        · simp only [hlt]
          by_cases hf : sv = "fallback"
          · simp only [if_pos hf, fallbackCall_events]
            intro hmem
            simp only [List.mem_singleton, Event.modelCall.injEq] at hmem
            exact hmem.1
          · simp [if_neg hf]
        · simp only [hlt]
          rcases hu : unpackSingleArg spec.argName (getDefault kvs "arguments" (.obj []))
              with e | v2 <;> simp [hu]
      · simp [hpg]
      · simp [hpg]

/-- C9: the caller-supplied history is never mutated (the embedding is pure
and the Python code only ever builds `[system] + history + [user]` with list
concatenation, which copies): every model call the orchestrator issues, on
any path, carries a freshly built message sequence of the form system turn
:: history ++ [user turn], with the history passed through verbatim. -/
theorem model_calls_rebuild_history (oracle : List Msg → Bool → ProviderResponse)
    (env : String → JValue → String) (query : String) (history : List Msg) :
    ∀ ms b, Event.modelCall ms b ∈ (orchestrate_agent oracle env query history).2 →
      ∃ sys, ms = mkMsg "system" sys :: (history ++ [mkMsg "user" query]) := by
  intro ms b
  rcases ho : oracle (mainMessages query history) true with body | ⟨st, b2⟩ | m
  · rcases hc : getContent body with e | c
    · simp only [orchestrate_agent, ho, hc]
      intro hmem
      simp only [List.mem_singleton, Event.modelCall.injEq] at hmem
      exact ⟨promptWithTools, hmem.1⟩
    · rcases c with _ | bv | iv | qv | sv | elems | kvs2
      case str =>
        rcases hj : jsonLoads sv with e | choice
        · simp only [orchestrate_agent, ho, hc, hj]
          intro hmem
          simp only [List.mem_singleton, Event.modelCall.injEq] at hmem
          exact ⟨promptWithTools, hmem.1⟩
        · simp only [orchestrate_agent, ho, hc, hj]
          intro hmem
          rw [List.mem_cons] at hmem
          rcases hmem with hmem | hmem
          · simp only [Event.modelCall.injEq] at hmem
            exact ⟨promptWithTools, hmem.1⟩
          · exact ⟨fallbackPrompt,
              dispatchChoice_modelCalls oracle env query history choice ms b hmem⟩
      all_goals
        simp only [orchestrate_agent, ho, hc]
        intro hmem
        simp only [List.mem_singleton, Event.modelCall.injEq] at hmem
        exact ⟨promptWithTools, hmem.1⟩
  · simp only [orchestrate_agent, ho]
    intro hmem
    simp only [List.mem_singleton, Event.modelCall.injEq] at hmem
    exact ⟨promptWithTools, hmem.1⟩
  · simp only [orchestrate_agent, ho]
    intro hmem
    simp only [List.mem_singleton, Event.modelCall.injEq] at hmem
    exact ⟨promptWithTools, hmem.1⟩

/-- C9 witness: the tool-selection call's messages with query "hi" and empty
history have the required shape. -/
theorem model_calls_rebuild_history_witness :
    ∃ sys, mainMessages "hi" [] = mkMsg "system" sys :: ([] ++ [mkMsg "user" "hi"]) :=
  model_calls_rebuild_history (fun _ _ => .exn "boom") envEmpty "hi" []
    (mainMessages "hi" []) true (List.mem_singleton.mpr rfl)

/-- C10: a valid JSON object response that lacks `tool_name` (or maps it to
null) is treated as the unknown-tool case, producing the descriptive
does-not-exist message (with Python's "None" rendering), not a
malformed-response error; and a missing `arguments` key defaults to the
empty argument mapping rather than failing. -/
theorem missing_tool_name_is_unknown_tool
    (oracle : List Msg → Bool → ProviderResponse) (env : String → JValue → String)
    (query : String) (history : List Msg) (body : JValue) (s : String)
    (kvs : List (String × JValue))
    (h1 : oracle (mainMessages query history) true = .ok body)
    (h2 : getContent body = .ok (.str s))
    (h3 : jsonLoads s = .ok (.obj kvs))
    (h4 : pyGetOpt kvs "tool_name" = none) :
    (orchestrate_agent oracle env query history).1 =
      .ret (some ⟨query, .str (unknownToolMsg "None")⟩) ∧
    ∀ kvs2 : List (String × JValue), lookupJ kvs2 "arguments" = none →
      getDefault kvs2 "arguments" (.obj []) = .obj [] := by
  refine ⟨?_, fun kvs2 hk => by simp [getDefault, hk]⟩
  simp only [orchestrate_agent, h1, h2, h3, dispatchChoice, h4]
  rfl

/-- C10 witness: a response whose choice object only carries an (empty)
`arguments` mapping yields the does-not-exist message naming "None". -/
theorem missing_tool_name_is_unknown_tool_witness :
    (orchestrate_agent oracleNoTool envEmpty "q" []).1 =
      .ret (some ⟨"q", .str (unknownToolMsg "None")⟩) :=
  (missing_tool_name_is_unknown_tool oracleNoTool envEmpty "q" []
    (bodyWith contentNoTool) contentNoTool [("arguments", .obj [])]
    rfl rfl rfl rfl).1
